import Mathlib

/-!
Shallow embedding of `src/teams-notify-bot.py` (arXiv → Bedrock → Teams
notification Lambda) and proofs of the frozen claims about it.

Modelling conventions:
* Python strings are `String` where only equality and concatenation matter
  (URLs, titles, JSON keys), and `List Char` where index arithmetic or
  slicing matters (the raw model response text and abstracts).
* External collaborators (feedparser, the DynamoDB table, the Bedrock
  runtime, `json.loads`, `requests.post`) are passed in as explicit oracle
  functions or result values; the code under verification is everything
  that combines them.
* Fallible Python operations are `Except Unit _`; an `Except.error` is a
  raised exception at that point of the source.
* JSON values produced by `json.loads` are modelled by the inductive
  `JValue`; numeric values are modelled as integers (no claim concerns
  numerics).
-/

set_option autoImplicit false
set_option maxRecDepth 8192

namespace NotifyBot

/-- A JSON value as returned by Python's `json.loads`. -/
inductive JValue where
  | null : JValue
  | bool : Bool → JValue
  | num : Int → JValue
  | str : String → JValue
  | arr : List JValue → JValue
  | obj : List (String × JValue) → JValue

/-- Python dict key lookup (`d[k]` / `k in d`); JSON object keys are unique
so first-match lookup is faithful. -/
def lookupField (fields : List (String × JValue)) (key : String) : Option JValue :=
  match fields with
  | [] => none
  | (k, v) :: rest => if k == key then some v else lookupField rest key

/-- Interprets a JSON array as a list of Python strings; `none` when some
element is not a string (where Python string operations would raise). -/
def asStrings : List JValue → Option (List String)
  | [] => some []
  | JValue.str s :: rest => (asStrings rest).map (fun ss => s :: ss)
  | _ => none

/-- Python substring test `needle in hay` for strings. -/
def containsSub (needle : List Char) : List Char → Bool
  | [] => needle.isEmpty
  | c :: rest => needle.isPrefixOf (c :: rest) || containsSub needle rest

/-- Python `str.find`: index of the first occurrence of `c`, `none` when absent. -/
def ffind (c : Char) : List Char → Option Nat
  | [] => none
  | x :: xs => if x == c then some 0 else (ffind c xs).map (fun i => i + 1)

/-- Python `str.rfind`: index of the last occurrence of `c`, `none` when absent. -/
def rfind (c : Char) : List Char → Option Nat
  | [] => none
  | x :: xs =>
    match rfind c xs with
    | some i => some (i + 1)
    | none => if x == c then some 0 else none

mutual

/-- Python `repr` of a JSON-decoded value (used by `str` on containers).
Quoting of strings is simplified: embedded quotes are not re-escaped; no
claim exercises that corner. -/
def pyRepr : JValue → String
  | JValue.null => "None"
  | JValue.bool true => "True"
  | JValue.bool false => "False"
  | JValue.num n => toString n
  | JValue.str s => "\x27" ++ s ++ "\x27"
  | JValue.arr xs => "[" ++ pyReprList xs ++ "]"
  | JValue.obj fs => "\x7b" ++ pyReprFields fs ++ "\x7d"

/-- Comma-separated reprs of the elements of a list. -/
def pyReprList : List JValue → String
  | [] => ""
  | [x] => pyRepr x
  | x :: y :: xs => pyRepr x ++ ", " ++ pyReprList (y :: xs)

/-- Comma-separated reprs of the entries of a dict. -/
def pyReprFields : List (String × JValue) → String
  | [] => ""
  | [(k, v)] => "\x27" ++ k ++ "\x27: " ++ pyRepr v
  | (k, v) :: f :: fs => "\x27" ++ k ++ "\x27: " ++ pyRepr v ++ ", " ++ pyReprFields (f :: fs)

end

/-- Python `str(v)` for a JSON-decoded value (as used by f-string interpolation). -/
def pyStr : JValue → String
  | JValue.str s => s
  | v => pyRepr v

/-! ## Relevance Selector: response parsing (`analyze_papers_with_bedrock`, lines 341-360) -/

/-- `ABSTRACT_TRUNCATE_LENGTH = 1500` (line 28). -/
def ABSTRACT_TRUNCATE_LENGTH : Nat := 1500

/-- Lines 343-347: when both braces occur in the raw text, the slice from the
first `\x7b` to the last `\x7d` inclusive (`result_text[result_text.find(..) :
result_text.rfind(..)+1]`); otherwise the whole text. -/
def extract_json_part (t : List Char) : List Char :=
  match ffind '{' t, rfind '}' t with
  | some a, some b => (t.drop a).take (b + 1 - a)
  | _, _ => t

/-- The dict `{"selected_papers": []}` returned on every parse/validation fallback. -/
def emptySelection : JValue := JValue.obj [("selected_papers", JValue.arr [])]

/-- `'selected_papers' in analysis_data and isinstance(analysis_data['selected_papers'], list)`
for a dict `analysis_data`. -/
def hasSelArr (fields : List (String × JValue)) : Bool :=
  match lookupField fields "selected_papers" with
  | some (JValue.arr _) => true
  | _ => false

/-- Lines 352-356: validation of the parsed value. For a dict, missing or
non-list `selected_papers` yields the empty selection. For a non-dict the
Python membership test / subscript raises `TypeError` (propagated through the
outer `except`, line 366): a string raises only when it contains the key as a
substring, a list only when it contains the key as an element; other types are
not iterable and raise immediately. -/
def validate_analysis (analysis_data : JValue) : Except Unit JValue :=
  match analysis_data with
  | JValue.obj fields =>
    if hasSelArr fields then Except.ok (JValue.obj fields) else Except.ok emptySelection
  | JValue.str s =>
    if containsSub "selected_papers".toList s.toList then Except.error () else Except.ok emptySelection
  | JValue.arr xs =>
    if xs.any (fun x => match x with | JValue.str s => s == "selected_papers" | _ => false)
    then Except.error () else Except.ok emptySelection
  | _ => Except.error ()

/-- Outcome of the `bedrock_runtime.invoke_model` call together with reading the
response body and extracting `content[0].text` (lines 329-337): either the raw
response text or a raised exception. -/
inductive BedrockResult where
  | ok : List Char → BedrockResult
  | failure : BedrockResult

/-- `TopicHierarchy`: the ordered 7-level topic mapping (lines 95-103). -/
structure TopicHierarchy where
  L0_Domain : List String
  L1_Approach : List String
  L2_Task : List String
  L3_Modality : List String
  L4_Application : List String
  L5_Environment : List String
  L6_Challenge : List String

/-- `if not any(topic_hierarchy.values())` (line 105). -/
def hasAnyTopics (th : TopicHierarchy) : Bool :=
  !(th.L0_Domain.isEmpty && th.L1_Approach.isEmpty && th.L2_Task.isEmpty &&
    th.L3_Modality.isEmpty && th.L4_Application.isEmpty && th.L5_Environment.isEmpty &&
    th.L6_Challenge.isEmpty)

/-- A `CandidatePaper` dict as built by the collector (lines 202-206). -/
structure Paper where
  url : String
  title : String
  abstract : List Char
  deriving DecidableEq

/-- `analyze_papers_with_bedrock` (lines 237-366). The prompt built from
`papers` and `topic_hierarchy` reaches the model only through the `bedrock`
oracle, so the prompt text itself is not modelled; the function's observable
behaviour is how it turns the model response into a selection. `jparse` is
Python's `json.loads` (`none` = `json.JSONDecodeError`, caught at line 358). -/
def analyze_papers_with_bedrock (papers : List Paper) (topic_hierarchy : TopicHierarchy)
    (jparse : List Char → Option JValue) (bedrock : BedrockResult) : Except Unit JValue :=
  match papers, topic_hierarchy, bedrock with
  | _, _, BedrockResult.failure => Except.error ()
  | _, _, BedrockResult.ok result_text =>
    match jparse (extract_json_part result_text) with
    | none => Except.ok emptySelection
    | some analysis_data => validate_analysis analysis_data

/-- `analysis_result.get("selected_papers", [])` (line 130). After
`validate_analysis` the key is always present as a list; the remaining
branches default to the empty list as `dict.get` would only be reached with a
non-dict or keyless value. -/
def getSelected (analysis_result : JValue) : List JValue :=
  match analysis_result with
  | JValue.obj fields =>
    match lookupField fields "selected_papers" with
    | some (JValue.arr xs) => xs
    | _ => []
  | _ => []

/-! ## Feed Collector (`collect_unprocessed_papers`, lines 157-208) -/

/-- One feed entry as produced by feedparser: `entry.link`, `entry.title`,
`entry.summary`. -/
structure Entry where
  link : String
  title : String
  summary : List Char

/-- Outcome of `feedparser.parse` for one URL: `failed` covers both the bozo
flag (line 169) and a raised library error (line 172), which the code treats
identically (warn and continue). -/
inductive FeedResult where
  | failed : FeedResult
  | entries : List Entry → FeedResult

/-- `is_article_processed` (lines 210-219): the DynamoDB `get_item` oracle
returns whether an item exists, or an error; any error is swallowed and
treated as "unprocessed" (fail-open, line 219). -/
def is_article_processed (getItem : String → Except Unit Bool) (url : String) : Bool :=
  match getItem url with
  | Except.ok found => found
  | Except.error _ => false

/-- Abstract truncation (lines 198-200): take the first
`ABSTRACT_TRUNCATE_LENGTH` characters and append the marker when the original
was longer. -/
def truncate_abstract (abstract : List Char) : List Char :=
  let truncated := abstract.take ABSTRACT_TRUNCATE_LENGTH
  if abstract.length > ABSTRACT_TRUNCATE_LENGTH then truncated ++ "... (truncated)".toList
  else truncated

/-- The entry loop of one feed (lines 180-206): `count` is
`fetched_from_this_feed`; stop when the per-feed limit is reached, skip
already-processed links without counting them, otherwise emit the paper and
its link (the mark-list entry) in step. -/
def processEntries (proc : String → Bool) (limit : Nat) : List Entry → Nat → List Paper × List String
  | [], _ => ([], [])
  | e :: rest, count =>
    if limit ≤ count then ([], [])
    else if proc e.link then processEntries proc limit rest count
    else
      (⟨e.link, e.title, truncate_abstract e.summary⟩ :: (processEntries proc limit rest (count + 1)).1,
       e.link :: (processEntries proc limit rest (count + 1)).2)

/-- `collect_unprocessed_papers` (lines 157-208): iterate the configured feed
URLs in order; a failed or empty feed is skipped; each remaining feed
contributes its entry-loop output, appended in feed order. -/
def collect_unprocessed_papers (getItem : String → Except Unit Bool)
    (fetch : String → FeedResult) (feed_urls : List String) (limit_per_feed : Nat) :
    List Paper × List String :=
  match feed_urls with
  | [] => ([], [])
  | u :: rest =>
    match fetch u with
    | FeedResult.failed => collect_unprocessed_papers getItem fetch rest limit_per_feed
    | FeedResult.entries es =>
      if es.isEmpty then collect_unprocessed_papers getItem fetch rest limit_per_feed
      else
        ((processEntries (is_article_processed getItem) limit_per_feed es 0).1 ++
           (collect_unprocessed_papers getItem fetch rest limit_per_feed).1,
         (processEntries (is_article_processed getItem) limit_per_feed es 0).2 ++
           (collect_unprocessed_papers getItem fetch rest limit_per_feed).2)

/-! ## Dedup Store Adapter: marking (`mark_article_as_processed`, lines 221-235) -/

/-- `mark_article_as_processed` (lines 221-235) acting on an abstract store
state (the set of marked identifiers): a `put_item` failure (`putFails url`)
is caught and logged, leaving the store unchanged; the function itself never
raises. The record's `processed_at`/`ttl` fields are elided: no claim
concerns their values. -/
def mark_article_as_processed (putFails : String → Bool) (store : List String)
    (url : String) : List String :=
  if putFails url then store else url :: store

/-- The marking loop of the handler (lines 149-150). -/
def mark_loop (putFails : String → Bool) (urls : List String) (store : List String) :
    List String :=
  urls.foldl (mark_article_as_processed putFails) store

/-! ## Notifier (`post_summary_to_teams`, lines 368-466) -/

/-- One element of the Adaptive Card body: the `---` separator TextBlock
(line 380), the rank+title TextBlock (lines 383-389), the markdown
topic/keywords/summary TextBlock (lines 414-419) and the OpenUrl ActionSet
(lines 422-432). Layout attributes (`size`, `wrap`, `spacing`, ...) are
constants in the source and elided. -/
inductive CardElement where
  | separator : CardElement
  | titleBlock : String → CardElement
  | bodyBlock : String → CardElement
  | actionSet : String → JValue → CardElement

/-- Python `sep.join(v)` for a JSON-decoded value: joins a list of strings,
iterates a string character-wise, iterates a dict over its keys; a non-string
element or a non-iterable value raises `TypeError`. -/
def py_join (sep : String) (v : JValue) : Except Unit String :=
  match v with
  | JValue.arr xs =>
    match asStrings xs with
    | some ss => Except.ok (String.intercalate sep ss)
    | none => Except.error ()
  | JValue.str s => Except.ok (String.intercalate sep (s.toList.map String.singleton))
  | JValue.obj fs => Except.ok (String.intercalate sep (fs.map (fun kv => kv.1)))
  | _ => Except.error ()

/-- Lines 394-402: `topic_value` is rendered comma-joined when it is a
non-empty list, `(N/A)` when it is an empty list, and `str(topic_value)`
otherwise. -/
def topic_display (topic_value : JValue) : Except Unit String :=
  match topic_value with
  | JValue.arr [] => Except.ok "(N/A)"
  | JValue.arr xs => py_join ", " (JValue.arr xs)
  | v => Except.ok (pyStr v)

/-- The card elements appended for the `i`-th selected paper (lines 383-432),
excluding the separator. A non-dict paper raises (`.get` on a non-dict). -/
def render_paper (i : Nat) (paper : JValue) : Except Unit (List CardElement) :=
  match paper with
  | JValue.obj fields =>
    match topic_display ((lookupField fields "matched_topic").getD (JValue.str "(N/A)")),
          py_join ", " ((lookupField fields "keywords").getD (JValue.arr [])) with
    | Except.ok topic_str, Except.ok keywords_str =>
      Except.ok [CardElement.titleBlock ("**" ++ toString (i + 1) ++ ". " ++
                   pyStr ((lookupField fields "title").getD (JValue.str "(No Title)")) ++ "**"),
                 CardElement.bodyBlock ("**該当トピック:**\n" ++ topic_str ++
                   "\n\n**キーワード:**\n" ++ keywords_str ++ "\n\n" ++
                   pyStr ((lookupField fields "summary").getD (JValue.str "(No Summary)"))),
                 CardElement.actionSet "元の論文 (arXiv) を読む"
                   ((lookupField fields "url").getD (JValue.str "#"))]
    | Except.error e, _ => Except.error e
    | _, Except.error e => Except.error e
  | _ => Except.error ()

/-- The card-body loop (lines 374-432): a separator before every entry except
the first, then the three blocks of the entry. `i` is the enumeration index. -/
def build_card_aux : List JValue → Nat → Except Unit (List CardElement)
  | [], _ => Except.ok []
  | p :: rest, i =>
    match render_paper i p, build_card_aux rest (i + 1) with
    | Except.ok here, Except.ok tail =>
      Except.ok ((if 0 < i then [CardElement.separator] else []) ++ here ++ tail)
    | Except.error e, _ => Except.error e
    | _, Except.error e => Except.error e

/-- `card_body_elements` after the enumeration loop over `selected_papers`. -/
def build_card_body (selected_papers : List JValue) : Except Unit (List CardElement) :=
  build_card_aux selected_papers 0

/-- Outcome of `requests.post` to the webhook: the final HTTP status, or a
raised `requests.RequestException` (connection error, timeout, ...). -/
inductive DeliveryResult where
  | ok : Nat → DeliveryResult
  | netError : DeliveryResult

/-- `post_summary_to_teams` (lines 368-466): build the card (a rendering
`TypeError` propagates to the caller), then return `False` when the webhook
URL is unset (lines 453-455); `raise_for_status` turns a 4xx/5xx status into a
caught `RequestException` → `False` (lines 459, 462-466); otherwise the result
is `status_code == 200` (line 461). -/
def post_summary_to_teams (webhook : Option String) (deliver : DeliveryResult)
    (selected_papers : List JValue) : Except Unit Bool :=
  match build_card_body selected_papers with
  | Except.error e => Except.error e
  | Except.ok _elements =>
    match webhook with
    | none => Except.ok false
    | some _ =>
      match deliver with
      | DeliveryResult.netError => Except.ok false
      | DeliveryResult.ok status =>
        if 400 ≤ status then Except.ok false else Except.ok (status == 200)

/-! ## Orchestrator (`lambda_handler`, lines 53-153) -/

/-- `limit_per_feed = max(1, max_to_process // num_feeds)` (line 83). -/
def limit_per_feed (max_to_process num_feeds : Nat) : Nat :=
  max 1 (max_to_process / num_feeds)

/-- Observable outcome of one handler invocation. `teamsOutcome` is `none`
when the Notifier was not invoked, `some none` when `post_summary_to_teams`
raised (caught at line 142), `some (some b)` when it returned `b`.
`markAttempts` lists the identifiers for which `mark_article_as_processed`
was invoked, in order; `finalStore` is the dedup store afterwards. -/
structure HandlerResult where
  statusCode : Nat
  body : String
  notifierInvoked : Bool
  teamsOutcome : Option (Option Bool)
  markAttempts : List String
  finalStore : List String

/-- `lambda_handler` (lines 53-153) from the point where configuration is
already materialised: `feed_urls` is the parsed `RSS_FEED_URLS` list (line
77), `max_to_process` the parsed article cap (lines 69-72), `topic_hierarchy`
the parsed topic levels. The AWS clients are assumed initialised (the line
64-66 500-branch is a pure configuration guard with no pipeline behaviour);
environment-string parsing and logging are not modelled. -/
def lambda_handler (getItem : String → Except Unit Bool) (fetch : String → FeedResult)
    (putFails : String → Bool) (jparse : List Char → Option JValue)
    (bedrock : BedrockResult) (webhook : Option String) (deliver : DeliveryResult)
    (feed_urls : List String) (max_to_process : Nat) (topic_hierarchy : TopicHierarchy)
    (store0 : List String) : HandlerResult :=
  if feed_urls.isEmpty then
    { statusCode := 200, body := "RSS_FEED_URLS not set", notifierInvoked := false,
      teamsOutcome := none, markAttempts := [], finalStore := store0 }
  else if !hasAnyTopics topic_hierarchy then
    { statusCode := 200, body := "All topic environments are empty.", notifierInvoked := false,
      teamsOutcome := none, markAttempts := [], finalStore := store0 }
  else
    let limit := limit_per_feed max_to_process feed_urls.length
    let collected := collect_unprocessed_papers getItem fetch feed_urls limit
    let papers_to_analyze := collected.1
    let processed_urls_in_this_run := collected.2
    if papers_to_analyze.isEmpty then
      { statusCode := 200, body := "No new articles to analyze", notifierInvoked := false,
        teamsOutcome := none, markAttempts := [], finalStore := store0 }
    else
      let selected_papers : List JValue :=
        match analyze_papers_with_bedrock papers_to_analyze topic_hierarchy jparse bedrock with
        | Except.ok analysis_result => getSelected analysis_result
        | Except.error _ => []
      let teamsOutcome : Option (Option Bool) :=
        if selected_papers.isEmpty then none
        else
          match post_summary_to_teams webhook deliver selected_papers with
          | Except.ok b => some (some b)
          | Except.error _ => some none
      { statusCode := 200,
        body := "Process successful. Analyzed " ++ toString papers_to_analyze.length ++ " articles.",
        notifierInvoked := !selected_papers.isEmpty,
        teamsOutcome := teamsOutcome,
        markAttempts := processed_urls_in_this_run,
        finalStore := mark_loop putFails processed_urls_in_this_run store0 }

/-! ## Spec-side rendering (section 4.4 of the spec)

The following definitions follow the spec's words, not the code, and exist to
be compared with `build_card_body`: per paper in order, a rank+title block,
one markdown block whose topic/keywords/summary parts obey the documented
display rules, and a link element, with a separator between consecutive
entries only. The framing text around the display strings is the code's; the
spec constrains content and order, which the proved equality subsumes. -/

/-- A `SelectedPaper` as the spec's data model describes it: a JSON object
whose `url` and `title` are strings, `matched_topic` is absent, a string or a
list of strings, `keywords` is absent or a list of strings, and `summary` is
absent or a string. -/
def wellFormedPaper (p : JValue) : Bool :=
  match p with
  | JValue.obj fields =>
    (match lookupField fields "url" with
     | some (JValue.str _) => true | _ => false) &&
    (match lookupField fields "title" with
     | some (JValue.str _) => true | _ => false) &&
    (match lookupField fields "matched_topic" with
     | none => true
     | some (JValue.str _) => true
     | some (JValue.arr xs) => (asStrings xs).isSome
     | _ => false) &&
    (match lookupField fields "keywords" with
     | none => true
     | some (JValue.arr xs) => (asStrings xs).isSome
     | _ => false) &&
    (match lookupField fields "summary" with
     | none => true | some (JValue.str _) => true | _ => false)
  | _ => false

/-- Spec display rule for `matched_topic`: comma-joined when a non-empty
list, verbatim when a string, a placeholder when an empty list or absent. -/
def specTopicDisplay (fields : List (String × JValue)) : String :=
  match lookupField fields "matched_topic" with
  | some (JValue.arr (x :: xs)) => String.intercalate ", " ((asStrings (x :: xs)).getD [])
  | some (JValue.str s) => s
  | _ => "(N/A)"

/-- Spec display rule for `keywords`: comma-joined, defaulting to empty when absent. -/
def specKeywordsDisplay (fields : List (String × JValue)) : String :=
  match lookupField fields "keywords" with
  | some (JValue.arr xs) => String.intercalate ", " ((asStrings xs).getD [])
  | _ => ""

/-- Spec display rule for `summary`: the summary text, a placeholder when absent. -/
def specSummaryDisplay (fields : List (String × JValue)) : String :=
  match lookupField fields "summary" with
  | some (JValue.str s) => s
  | _ => "(No Summary)"

/-- The paper's title, with the code's placeholder when absent. -/
def specTitleDisplay (fields : List (String × JValue)) : String :=
  match lookupField fields "title" with
  | some (JValue.str s) => s
  | _ => "(No Title)"

/-- The paper's URL as carried by the link element. -/
def specUrlValue (fields : List (String × JValue)) : JValue :=
  (lookupField fields "url").getD (JValue.str "#")

/-- Spec-side blocks for the `i`-th paper: rank number `i+1` with the title,
the combined topic/keywords/summary markdown block, the link element. -/
def spec_blocks (i : Nat) (p : JValue) : List CardElement :=
  match p with
  | JValue.obj fields =>
    [CardElement.titleBlock ("**" ++ toString (i + 1) ++ ". " ++ specTitleDisplay fields ++ "**"),
     CardElement.bodyBlock ("**該当トピック:**\n" ++ specTopicDisplay fields ++
       "\n\n**キーワード:**\n" ++ specKeywordsDisplay fields ++ "\n\n" ++ specSummaryDisplay fields),
     CardElement.actionSet "元の論文 (arXiv) を読む" (specUrlValue fields)]
  | _ => []

/-- Spec-side body: entries in input order, separator between consecutive
entries, none before the first. -/
def spec_card_aux : Nat → List JValue → List CardElement
  | _, [] => []
  | i, p :: rest =>
    (if 0 < i then [CardElement.separator] else []) ++ spec_blocks i p ++ spec_card_aux (i + 1) rest

/-- Spec-side rendered message for an ordered list of selected papers. -/
def spec_card_body (papers : List JValue) : List CardElement := spec_card_aux 0 papers

/-! ## Concrete fixtures used by scenario theorems and witnesses -/

/-- A feed entry whose title equals its link and whose summary is empty. -/
def scEntry (l : String) : Entry := ⟨l, l, []⟩

/-- Dedup store lookup for the end-to-end scenario: `a4` and `a5` are already
marked processed, everything else is new. -/
def scGetItem (u : String) : Except Unit Bool := Except.ok (u == "a4" || u == "a5")

/-- Source A of the scenario: 3 new entries interleaved with 2 processed ones. -/
def scFeedA : List Entry := [scEntry "a1", scEntry "a4", scEntry "a2", scEntry "a5", scEntry "a3"]

/-- Source B of the scenario: 12 new entries. -/
def scFeedB : List Entry :=
  [scEntry "b1", scEntry "b2", scEntry "b3", scEntry "b4", scEntry "b5", scEntry "b6",
   scEntry "b7", scEntry "b8", scEntry "b9", scEntry "b10", scEntry "b11", scEntry "b12"]

/-- Feed fetch oracle for the scenario. -/
def scFetch (u : String) : FeedResult :=
  if u == "feedA" then FeedResult.entries scFeedA else FeedResult.entries scFeedB

/-- The collector's output in the scenario: 2 sources, overall cap 20. -/
def scCollected : List Paper × List String :=
  collect_unprocessed_papers scGetItem scFetch ["feedA", "feedB"] (limit_per_feed 20 2)

/-- A topic hierarchy with one topic (so the handler proceeds past the
empty-topics guard). -/
def oneTopic : TopicHierarchy := ⟨["ai"], [], [], [], [], [], []⟩

/-- The all-empty topic hierarchy. -/
def emptyTopics : TopicHierarchy := ⟨[], [], [], [], [], [], []⟩

/-- A raw model response that is pure JSON carrying four selected papers. -/
def cxRaw : List Char :=
  "\x7b\"selected_papers\": [\x7b\x7d, \x7b\x7d, \x7b\x7d, \x7b\x7d]\x7d".toList

/-- What `json.loads` returns on `cxRaw`. -/
def cxParsed : JValue :=
  JValue.obj [("selected_papers",
    JValue.arr [JValue.obj [], JValue.obj [], JValue.obj [], JValue.obj []])]

/-- A `json.loads` oracle that behaves like the real parser on `cxRaw` and
rejects everything else. -/
def cxJparse (t : List Char) : Option JValue := if t == cxRaw then some cxParsed else none

/-- The analysis result the handler extracts from the four-paper response. -/
def cxOutcome : JValue :=
  match analyze_papers_with_bedrock [] emptyTopics cxJparse (BedrockResult.ok cxRaw) with
  | Except.ok d => d
  | Except.error _ => emptySelection

/-- A fully populated selected paper whose `matched_topic` is a list. -/
def wfPaper1 : JValue :=
  JValue.obj [("url", JValue.str "http://arxiv.org/abs/1"), ("title", JValue.str "T1"),
    ("matched_topic", JValue.arr [JValue.str "A", JValue.str "B"]),
    ("keywords", JValue.arr [JValue.str "k1", JValue.str "k2", JValue.str "k3"]),
    ("summary", JValue.str "S1")]

/-- A selected paper whose `matched_topic` is a single string and whose
`keywords` and `summary` are absent. -/
def wfPaper2 : JValue :=
  JValue.obj [("url", JValue.str "http://arxiv.org/abs/2"), ("title", JValue.str "T2"),
    ("matched_topic", JValue.str "A")]

/-- A selected paper whose `matched_topic` is the empty list. -/
def wfPaper3 : JValue :=
  JValue.obj [("url", JValue.str "http://arxiv.org/abs/3"), ("title", JValue.str "T3"),
    ("matched_topic", JValue.arr []), ("keywords", JValue.arr [])]

/-! ## Helper lemmas -/

theorem processEntries_snd_eq (proc : String → Bool) (limit : Nat) :
    ∀ (es : List Entry) (count : Nat),
      (processEntries proc limit es count).2 =
      (processEntries proc limit es count).1.map Paper.url := by
  intro es
  induction es with
  | nil => intro count; rfl
  | cons e rest ih =>
    intro count
    unfold processEntries
    by_cases h1 : limit ≤ count
    · simp [h1]
    · by_cases h2 : proc e.link
      · simpa [h1, h2] using ih count
      · simp [h1, h2, ih (count + 1)]

theorem collect_snd_eq (getItem : String → Except Unit Bool) (fetch : String → FeedResult)
    (limit : Nat) : ∀ (feed_urls : List String),
      (collect_unprocessed_papers getItem fetch feed_urls limit).2 =
      (collect_unprocessed_papers getItem fetch feed_urls limit).1.map Paper.url := by
  intro urls
  induction urls with
  | nil => rfl
  | cons u rest ih =>
    unfold collect_unprocessed_papers
    cases hf : fetch u with
    | failed => simpa using ih
    | entries es =>
      by_cases he : es.isEmpty
      · simpa [he] using ih
      · simp [he, ih, processEntries_snd_eq]

theorem processEntries_fst_length_le (proc : String → Bool) (limit : Nat) :
    ∀ (es : List Entry) (count : Nat),
      (processEntries proc limit es count).1.length ≤ limit - count := by
  intro es
  induction es with
  | nil => intro count; simp [processEntries]
  | cons e rest ih =>
    intro count
    unfold processEntries
    by_cases h1 : limit ≤ count
    · simp [h1]
    · by_cases h2 : proc e.link
      · simp only [if_neg h1, if_pos h2]
        exact ih count
      · have h3 := ih (count + 1)
        simp only [if_neg h1, if_neg h2, List.length_cons]
        omega

theorem collect_fst_length_le (getItem : String → Except Unit Bool)
    (fetch : String → FeedResult) (limit : Nat) :
    ∀ (feed_urls : List String),
      (collect_unprocessed_papers getItem fetch feed_urls limit).1.length ≤
      feed_urls.length * limit := by
  intro urls
  induction urls with
  | nil => simp [collect_unprocessed_papers]
  | cons u rest ih =>
    have hmul : ((u :: rest) : List String).length * limit = rest.length * limit + limit := by
      simp [Nat.succ_mul]
    unfold collect_unprocessed_papers
    cases hf : fetch u with
    | failed =>
      dsimp only
      omega
    | entries es =>
      dsimp only
      by_cases he : es.isEmpty = true
      · rw [if_pos he]
        omega
      · rw [if_neg he]
        have h1 := processEntries_fst_length_le (is_article_processed getItem) limit es 0
        simp only [List.length_append]
        omega

theorem mem_mark_article (putFails : String → Bool) (store : List String) (url v : String)
    (h : v ∈ store) : v ∈ mark_article_as_processed putFails store url := by
  unfold mark_article_as_processed
  split
  · exact h
  · exact List.mem_cons_of_mem _ h

theorem mem_mark_loop_of_mem (putFails : String → Bool) :
    ∀ (urls store : List String) (v : String),
      v ∈ store → v ∈ mark_loop putFails urls store := by
  intro urls
  induction urls with
  | nil => intro store v h; exact h
  | cons u rest ih =>
    intro store v h
    exact ih (mark_article_as_processed putFails store u) v
      (mem_mark_article putFails store u v h)

theorem mark_loop_marks (putFails : String → Bool) :
    ∀ (urls store : List String) (u : String),
      u ∈ urls → putFails u = false → u ∈ mark_loop putFails urls store := by
  intro urls
  induction urls with
  | nil => intro store u h; cases h
  | cons w rest ih =>
    intro store u hmem hfail
    rcases List.mem_cons.mp hmem with rfl | hmem'
    · have hstep : u ∈ mark_article_as_processed putFails store u := by
        unfold mark_article_as_processed
        simp [hfail]
      exact mem_mark_loop_of_mem putFails rest (mark_article_as_processed putFails store u) u hstep
    · exact ih (mark_article_as_processed putFails store w) u hmem' hfail

theorem handler_reaches_marking
    (getItem : String → Except Unit Bool) (fetch : String → FeedResult)
    (putFails : String → Bool) (jparse : List Char → Option JValue)
    (bedrock : BedrockResult) (webhook : Option String) (deliver : DeliveryResult)
    (feed_urls : List String) (M : Nat) (th : TopicHierarchy) (store0 : List String)
    (hth : hasAnyTopics th = true)
    (hne : (collect_unprocessed_papers getItem fetch feed_urls
             (limit_per_feed M feed_urls.length)).1 ≠ []) :
    (lambda_handler getItem fetch putFails jparse bedrock webhook deliver
        feed_urls M th store0).statusCode = 200 ∧
    (lambda_handler getItem fetch putFails jparse bedrock webhook deliver
        feed_urls M th store0).markAttempts =
      (collect_unprocessed_papers getItem fetch feed_urls
        (limit_per_feed M feed_urls.length)).2 ∧
    (lambda_handler getItem fetch putFails jparse bedrock webhook deliver
        feed_urls M th store0).finalStore =
      mark_loop putFails (collect_unprocessed_papers getItem fetch feed_urls
        (limit_per_feed M feed_urls.length)).2 store0 ∧
    (bedrock = BedrockResult.failure →
      (lambda_handler getItem fetch putFails jparse bedrock webhook deliver
          feed_urls M th store0).notifierInvoked = false ∧
      (lambda_handler getItem fetch putFails jparse bedrock webhook deliver
          feed_urls M th store0).teamsOutcome = none) := by
  have hfu : feed_urls.isEmpty = false := by
    cases feed_urls with
    | nil => simp [collect_unprocessed_papers] at hne
    | cons a l => rfl
  have hpe : (collect_unprocessed_papers getItem fetch feed_urls
      (limit_per_feed M feed_urls.length)).1.isEmpty = false := by
    simp [List.isEmpty_iff, hne]
  refine ⟨?_, ?_, ?_, ?_⟩
  · simp [lambda_handler, hfu, hth, hpe]
  · simp [lambda_handler, hfu, hth, hpe]
  · simp [lambda_handler, hfu, hth, hpe]
  · intro hb
    subst hb
    constructor
    · simp [lambda_handler, hfu, hth, hpe, analyze_papers_with_bedrock]
    · simp [lambda_handler, hfu, hth, hpe, analyze_papers_with_bedrock]

/-! ## Claim theorems -/

/-- C9: for every feed entry turned into a candidate, the stored abstract is
the entry's summary unchanged when its length is at most
`ABSTRACT_TRUNCATE_LENGTH = 1500`, and otherwise the first 1500 characters
with the truncation marker appended; the entry loop stores exactly
`truncate_abstract` of the entry's summary in the constructed paper. -/
theorem C9_abstract_truncation :
    (∀ a : List Char, a.length ≤ ABSTRACT_TRUNCATE_LENGTH → truncate_abstract a = a) ∧
    (∀ a : List Char, ABSTRACT_TRUNCATE_LENGTH < a.length →
      truncate_abstract a = a.take ABSTRACT_TRUNCATE_LENGTH ++ "... (truncated)".toList) ∧
    (∀ (proc : String → Bool) (limit : Nat) (e : Entry) (rest : List Entry) (count : Nat),
      count < limit → proc e.link = false →
      (processEntries proc limit (e :: rest) count).1.head? =
        some ⟨e.link, e.title, truncate_abstract e.summary⟩) := by
  refine ⟨?_, ?_, ?_⟩
  · intro a h
    unfold truncate_abstract
    rw [if_neg (by omega)]
    exact List.take_of_length_le h
  · intro a h
    unfold truncate_abstract
    rw [if_pos (by omega)]
  · intro proc limit e rest count h1 h2
    unfold processEntries
    rw [if_neg (by omega), if_neg (by simp [h2])]
    rfl

/-- Witness for C9 at a short abstract, an overlong abstract and a concrete
entry. -/
theorem C9_abstract_truncation_witness :
    ("abc".toList.length ≤ ABSTRACT_TRUNCATE_LENGTH ∧ truncate_abstract "abc".toList = "abc".toList) ∧
    (ABSTRACT_TRUNCATE_LENGTH < (List.replicate 1501 'a').length ∧
      truncate_abstract (List.replicate 1501 'a') =
        (List.replicate 1501 'a').take ABSTRACT_TRUNCATE_LENGTH ++ "... (truncated)".toList) ∧
    ((0 : Nat) < 5 ∧
      (processEntries (fun _ => false) 5 [scEntry "u"] 0).1.head? =
        some ⟨(scEntry "u").link, (scEntry "u").title, truncate_abstract (scEntry "u").summary⟩) :=
  ⟨⟨by decide, C9_abstract_truncation.1 _ (by decide)⟩,
   ⟨by decide, C9_abstract_truncation.2.1 _ (by decide)⟩,
   ⟨by decide, C9_abstract_truncation.2.2 (fun _ => false) 5 (scEntry "u") [] 0 (by decide) rfl⟩⟩

/-- C3: for an overall cap `M` and `N ≥ 1` configured feed sources, the
per-feed quota is `max 1 (M / N)` (floor division) and the collector returns
at most `N * quota` candidates. -/
theorem C3_quota_and_total_bound :
    ∀ (getItem : String → Except Unit Bool) (fetch : String → FeedResult)
      (feed_urls : List String) (M : Nat), 1 ≤ feed_urls.length →
      limit_per_feed M feed_urls.length = max 1 (M / feed_urls.length) ∧
      (collect_unprocessed_papers getItem fetch feed_urls
        (limit_per_feed M feed_urls.length)).1.length ≤
        feed_urls.length * limit_per_feed M feed_urls.length := by
  intro getItem fetch urls M h
  exact ⟨rfl, collect_fst_length_le getItem fetch (limit_per_feed M urls.length) urls⟩

/-- Witness for C3 at the two-feed scenario with cap 20. -/
theorem C3_quota_and_total_bound_witness :
    1 ≤ (["feedA", "feedB"] : List String).length ∧
    limit_per_feed 20 (["feedA", "feedB"] : List String).length =
      max 1 (20 / (["feedA", "feedB"] : List String).length) ∧
    (collect_unprocessed_papers scGetItem scFetch ["feedA", "feedB"]
      (limit_per_feed 20 (["feedA", "feedB"] : List String).length)).1.length ≤
      (["feedA", "feedB"] : List String).length *
        limit_per_feed 20 (["feedA", "feedB"] : List String).length :=
  ⟨by decide, C3_quota_and_total_bound scGetItem scFetch ["feedA", "feedB"] 20 (by decide)⟩

/-- C4: the i-th identifier of the returned mark-list is the i-th candidate's
identifier, and in the 2-source scenario (cap 20 → quota 10; source A has 3
new entries interleaved with 2 already-processed ones, source B has 12 new
entries) exactly 13 candidates come back, the mark-list is exactly those 13
identifiers, and the already-processed identifiers appear in neither list. -/
theorem C4_collector_order_and_scenario :
    (∀ (getItem : String → Except Unit Bool) (fetch : String → FeedResult)
       (feed_urls : List String) (limit : Nat),
       (collect_unprocessed_papers getItem fetch feed_urls limit).2 =
       (collect_unprocessed_papers getItem fetch feed_urls limit).1.map Paper.url) ∧
    limit_per_feed 20 2 = 10 ∧
    scCollected.1.length = 13 ∧
    scCollected.2 =
      ["a1", "a2", "a3", "b1", "b2", "b3", "b4", "b5", "b6", "b7", "b8", "b9", "b10"] ∧
    "a4" ∉ scCollected.2 ∧ "a5" ∉ scCollected.2 ∧
    "a4" ∉ scCollected.1.map Paper.url ∧ "a5" ∉ scCollected.1.map Paper.url :=
  ⟨fun getItem fetch feed_urls limit => collect_snd_eq getItem fetch limit feed_urls,
   by decide, by decide, by decide, by decide, by decide, by decide, by decide⟩

/-- C10: candidates are deduplicated only against the persistent store, not
within the run: an identifier not in the store that appears in two sources is
collected once per occurrence and appears in the mark-list once per
occurrence. -/
theorem C10_no_intra_run_dedup :
    ∀ (getItem : String → Except Unit Bool) (fetch : String → FeedResult)
      (l t1 t2 : String) (s1 s2 : List Char) (limit : Nat),
      getItem l = Except.ok false → 1 ≤ limit →
      fetch "f1" = FeedResult.entries [⟨l, t1, s1⟩] →
      fetch "f2" = FeedResult.entries [⟨l, t2, s2⟩] →
      collect_unprocessed_papers getItem fetch ["f1", "f2"] limit =
        ([⟨l, t1, truncate_abstract s1⟩, ⟨l, t2, truncate_abstract s2⟩], [l, l]) := by
  intro getItem fetch l t1 t2 s1 s2 limit hget hlim hf1 hf2
  have hproc : is_article_processed getItem l = false := by
    simp [is_article_processed, hget]
  have hnl : ¬ (limit ≤ 0) := by omega
  simp [collect_unprocessed_papers, hf1, hf2, processEntries, hnl, hproc]

/-- Witness for C10 with a duplicated identifier across two feeds. -/
theorem C10_no_intra_run_dedup_witness :
    collect_unprocessed_papers (fun _ => Except.ok false)
      (fun u => if u == "f1" then FeedResult.entries [⟨"dup", "t1", []⟩]
                else FeedResult.entries [⟨"dup", "t2", []⟩]) ["f1", "f2"] 10 =
      ([⟨"dup", "t1", truncate_abstract []⟩, ⟨"dup", "t2", truncate_abstract []⟩],
       ["dup", "dup"]) :=
  C10_no_intra_run_dedup (fun _ => Except.ok false)
    (fun u => if u == "f1" then FeedResult.entries [⟨"dup", "t1", []⟩]
              else FeedResult.entries [⟨"dup", "t2", []⟩])
    "dup" "t1" "t2" [] [] 10 rfl (by decide) rfl rfl

/-- C6: `is_article_processed` returns true exactly when the store lookup
succeeds and finds an item, and false on any lookup error (fail-open);
`mark_article_as_processed` never raises, so in the marking loop every
identifier whose own write does not fail ends up marked, regardless of write
failures for other identifiers. -/
theorem C6_dedup_adapter_error_handling :
    (∀ (getItem : String → Except Unit Bool) (url : String),
      (is_article_processed getItem url = true ↔ getItem url = Except.ok true) ∧
      (∀ e : Unit, getItem url = Except.error e → is_article_processed getItem url = false)) ∧
    (∀ (putFails : String → Bool) (urls store : List String) (u : String),
      u ∈ urls → putFails u = false → u ∈ mark_loop putFails urls store) := by
  constructor
  · intro getItem url
    constructor
    · unfold is_article_processed
      cases h : getItem url with
      | ok b => cases b <;> simp
      | error e => simp
    · intro e he
      simp [is_article_processed, he]
  · exact fun putFails urls store u h1 h2 => mark_loop_marks putFails urls store u h1 h2

/-- Witness for C6: a failing lookup reads as unprocessed, and a url whose
write succeeds is marked even though another url's write fails. -/
theorem C6_dedup_adapter_error_handling_witness :
    is_article_processed (fun _ => Except.error ()) "x" = false ∧
    ("u1" ∈ (["u1", "u2"] : List String) ∧ (fun u => u == "u2") "u1" = false ∧
      "u1" ∈ mark_loop (fun u => u == "u2") ["u1", "u2"] []) :=
  ⟨(C6_dedup_adapter_error_handling.1 (fun _ => Except.error ()) "x").2 () rfl,
   by decide, by decide,
   C6_dedup_adapter_error_handling.2 (fun u => u == "u2") ["u1", "u2"] [] "u1"
     (by decide) (by decide)⟩

/-- C5: the response parser slices the raw text from the first brace to the
last brace inclusive when both are present and otherwise attempts the whole
text; a JSON parse failure, or a successfully parsed object lacking a
`selected_papers` array, yields the empty selection without raising. -/
theorem C5_response_parsing_robustness :
    (∀ (t : List Char) (a b : Nat), ffind '{' t = some a → rfind '}' t = some b →
      extract_json_part t = (t.drop a).take (b + 1 - a)) ∧
    (∀ t : List Char, ffind '{' t = none → rfind '}' t = none →
      extract_json_part t = t) ∧
    (∀ (papers : List Paper) (th : TopicHierarchy) (jparse : List Char → Option JValue)
       (raw : List Char), jparse (extract_json_part raw) = none →
      analyze_papers_with_bedrock papers th jparse (BedrockResult.ok raw) =
        Except.ok emptySelection) ∧
    (∀ (papers : List Paper) (th : TopicHierarchy) (jparse : List Char → Option JValue)
       (raw : List Char) (fields : List (String × JValue)),
      jparse (extract_json_part raw) = some (JValue.obj fields) →
      hasSelArr fields = false →
      analyze_papers_with_bedrock papers th jparse (BedrockResult.ok raw) =
        Except.ok emptySelection) := by
  refine ⟨?_, ?_, ?_, ?_⟩
  · intro t a b h1 h2
    simp [extract_json_part, h1, h2]
  · intro t h1 h2
    simp [extract_json_part, h1, h2]
  · intro papers th jparse raw h
    simp [analyze_papers_with_bedrock, h]
  · intro papers th jparse raw fields h1 h2
    simp [analyze_papers_with_bedrock, h1, validate_analysis, h2]

/-- Witness for C5: a prose-wrapped response, a brace-free response, an
unparseable response and a parsed object missing the key. -/
theorem C5_response_parsing_robustness_witness :
    (ffind '{' "ab\x7bcd\x7def".toList = some 2 ∧ rfind '}' "ab\x7bcd\x7def".toList = some 5 ∧
      extract_json_part "ab\x7bcd\x7def".toList = ("ab\x7bcd\x7def".toList.drop 2).take (5 + 1 - 2)) ∧
    (ffind '{' "abc".toList = none ∧ rfind '}' "abc".toList = none ∧
      extract_json_part "abc".toList = "abc".toList) ∧
    analyze_papers_with_bedrock [] emptyTopics (fun _ => none)
      (BedrockResult.ok "xyz".toList) = Except.ok emptySelection ∧
    analyze_papers_with_bedrock [] emptyTopics
      (fun t => if t == "\x7b\x7d".toList then some (JValue.obj []) else none)
      (BedrockResult.ok "\x7b\x7d".toList) = Except.ok emptySelection :=
  ⟨⟨rfl, rfl, C5_response_parsing_robustness.1 "ab\x7bcd\x7def".toList 2 5 rfl rfl⟩,
   ⟨rfl, rfl, C5_response_parsing_robustness.2.1 "abc".toList rfl rfl⟩,
   C5_response_parsing_robustness.2.2.1 [] emptyTopics (fun _ => none) "xyz".toList rfl,
   C5_response_parsing_robustness.2.2.2 [] emptyTopics
     (fun t => if t == "\x7b\x7d".toList then some (JValue.obj []) else none)
     "\x7b\x7d".toList [] rfl rfl⟩

/-- C1 counterexample: on a model response whose parsed `selected_papers`
array has four elements, the Selector hands all four papers onward — the
claimed at-most-3 bound with truncation/rejection of the excess does not hold
on the code. -/
theorem C1_counterexample_no_cap :
    cxOutcome = cxParsed ∧ (getSelected cxOutcome).length = 4 ∧
    ¬ (getSelected cxOutcome).length ≤ 3 :=
  ⟨rfl, rfl, by decide⟩

/-- C1 (amended): the prompt asks the model for at most 3 papers, but the
code does not enforce the bound — when the parsed response is an object whose
`selected_papers` is an array, `analyze_papers_with_bedrock` returns the
object unchanged and the handler extracts exactly that array, whatever its
length. -/
theorem C1_selector_returns_parsed_array :
    ∀ (papers : List Paper) (th : TopicHierarchy) (jparse : List Char → Option JValue)
      (raw : List Char) (fields : List (String × JValue)) (xs : List JValue),
      jparse (extract_json_part raw) = some (JValue.obj fields) →
      lookupField fields "selected_papers" = some (JValue.arr xs) →
      analyze_papers_with_bedrock papers th jparse (BedrockResult.ok raw) =
        Except.ok (JValue.obj fields) ∧
      getSelected (JValue.obj fields) = xs := by
  intro papers th jparse raw fields xs h1 h2
  have hsel : hasSelArr fields = true := by simp [hasSelArr, h2]
  constructor
  · simp [analyze_papers_with_bedrock, h1, validate_analysis, hsel]
  · simp [getSelected, h2]

/-- Witness for C1's amended theorem at the four-paper response. -/
theorem C1_selector_returns_parsed_array_witness :
    cxJparse (extract_json_part cxRaw) = some cxParsed ∧
    analyze_papers_with_bedrock [] emptyTopics cxJparse (BedrockResult.ok cxRaw) =
      Except.ok cxParsed ∧
    getSelected cxParsed =
      [JValue.obj [], JValue.obj [], JValue.obj [], JValue.obj []] :=
  ⟨rfl,
   (C1_selector_returns_parsed_array [] emptyTopics cxJparse cxRaw
      [("selected_papers", JValue.arr [JValue.obj [], JValue.obj [], JValue.obj [], JValue.obj []])]
      [JValue.obj [], JValue.obj [], JValue.obj [], JValue.obj []] rfl rfl).1,
   (C1_selector_returns_parsed_array [] emptyTopics cxJparse cxRaw
      [("selected_papers", JValue.arr [JValue.obj [], JValue.obj [], JValue.obj [], JValue.obj []])]
      [JValue.obj [], JValue.obj [], JValue.obj [], JValue.obj []] rfl rfl).2⟩

/-- C2: whenever the collector's batch is non-empty, the handler invokes
marking for every identifier of the batch's mark-list before returning and
returns status 200, whatever the Bedrock and Teams outcomes; and when the
Bedrock call raises, the Notifier is never invoked. -/
theorem C2_bookkeeping_always_reached :
    ∀ (getItem : String → Except Unit Bool) (fetch : String → FeedResult)
      (putFails : String → Bool) (jparse : List Char → Option JValue)
      (bedrock : BedrockResult) (webhook : Option String) (deliver : DeliveryResult)
      (feed_urls : List String) (M : Nat) (th : TopicHierarchy) (store0 : List String),
      hasAnyTopics th = true →
      (collect_unprocessed_papers getItem fetch feed_urls
        (limit_per_feed M feed_urls.length)).1 ≠ [] →
      (lambda_handler getItem fetch putFails jparse bedrock webhook deliver
          feed_urls M th store0).markAttempts =
        (collect_unprocessed_papers getItem fetch feed_urls
          (limit_per_feed M feed_urls.length)).2 ∧
      (lambda_handler getItem fetch putFails jparse bedrock webhook deliver
          feed_urls M th store0).finalStore =
        mark_loop putFails (collect_unprocessed_papers getItem fetch feed_urls
          (limit_per_feed M feed_urls.length)).2 store0 ∧
      (lambda_handler getItem fetch putFails jparse bedrock webhook deliver
          feed_urls M th store0).statusCode = 200 ∧
      (bedrock = BedrockResult.failure →
        (lambda_handler getItem fetch putFails jparse bedrock webhook deliver
            feed_urls M th store0).notifierInvoked = false) := by
  intro getItem fetch putFails jparse bedrock webhook deliver feed_urls M th store0 hth hne
  obtain ⟨h1, h2, h3, h4⟩ := handler_reaches_marking getItem fetch putFails jparse bedrock
    webhook deliver feed_urls M th store0 hth hne
  exact ⟨h2, h3, h1, fun hb => (h4 hb).1⟩

/-- Witness for C2: a concrete run over the two-feed scenario in which the
Bedrock call raises. -/
theorem C2_bookkeeping_always_reached_witness :
    hasAnyTopics oneTopic = true ∧ scCollected.1 ≠ [] ∧
    (lambda_handler scGetItem scFetch (fun _ => false) (fun _ => none)
        BedrockResult.failure none DeliveryResult.netError
        ["feedA", "feedB"] 20 oneTopic []).markAttempts = scCollected.2 ∧
    (lambda_handler scGetItem scFetch (fun _ => false) (fun _ => none)
        BedrockResult.failure none DeliveryResult.netError
        ["feedA", "feedB"] 20 oneTopic []).statusCode = 200 ∧
    (lambda_handler scGetItem scFetch (fun _ => false) (fun _ => none)
        BedrockResult.failure none DeliveryResult.netError
        ["feedA", "feedB"] 20 oneTopic []).notifierInvoked = false := by
  have h := C2_bookkeeping_always_reached scGetItem scFetch (fun _ => false) (fun _ => none)
    BedrockResult.failure none DeliveryResult.netError ["feedA", "feedB"] 20 oneTopic []
    rfl (by decide)
  exact ⟨rfl, by decide, h.1, h.2.2.1, h.2.2.2 rfl⟩

/-- C7: `post_summary_to_teams` reports success exactly when a webhook is
configured and the endpoint answers HTTP 200 — a network failure, a
non-success status or a missing webhook yields `False` without raising — and
a run with a non-empty candidate batch still returns status 200 and marks the
whole batch whatever the delivery outcome. -/
theorem C7_delivery_failure_nonfatal :
    (∀ (webhook : Option String) (deliver : DeliveryResult) (selected : List JValue)
       (elements : List CardElement), build_card_body selected = Except.ok elements →
      (post_summary_to_teams webhook deliver selected = Except.ok true ↔
        webhook.isSome = true ∧ deliver = DeliveryResult.ok 200)) ∧
    (∀ (getItem : String → Except Unit Bool) (fetch : String → FeedResult)
       (putFails : String → Bool) (jparse : List Char → Option JValue)
       (bedrock : BedrockResult) (webhook : Option String) (deliver : DeliveryResult)
       (feed_urls : List String) (M : Nat) (th : TopicHierarchy) (store0 : List String),
      hasAnyTopics th = true →
      (collect_unprocessed_papers getItem fetch feed_urls
        (limit_per_feed M feed_urls.length)).1 ≠ [] →
      (lambda_handler getItem fetch putFails jparse bedrock webhook deliver
          feed_urls M th store0).statusCode = 200 ∧
      (lambda_handler getItem fetch putFails jparse bedrock webhook deliver
          feed_urls M th store0).markAttempts =
        (collect_unprocessed_papers getItem fetch feed_urls
          (limit_per_feed M feed_urls.length)).2) := by
  constructor
  · intro webhook deliver selected elements h
    constructor
    · intro hp
      cases webhook with
      | none => simp [post_summary_to_teams, h] at hp
      | some w =>
        cases deliver with
        | netError => simp [post_summary_to_teams, h] at hp
        | ok status =>
          by_cases hs : 400 ≤ status
          · simp [post_summary_to_teams, h, hs] at hp
          · simp [post_summary_to_teams, h, hs] at hp
            exact ⟨rfl, by rw [hp]⟩
    · rintro ⟨hw, hd⟩
      cases webhook with
      | none => simp at hw
      | some w =>
        subst hd
        simp [post_summary_to_teams, h]
  · intro getItem fetch putFails jparse bedrock webhook deliver feed_urls M th store0 hth hne
    obtain ⟨h1, h2, _h3, _h4⟩ := handler_reaches_marking getItem fetch putFails jparse bedrock
      webhook deliver feed_urls M th store0 hth hne
    exact ⟨h1, h2⟩

/-- Witness for C7: a successful delivery on status 200, and a concrete run
with a four-paper selection whose delivery endpoint answers 500. -/
theorem C7_delivery_failure_nonfatal_witness :
    build_card_body [] = Except.ok [] ∧
    post_summary_to_teams (some "https://example.invalid/hook") (DeliveryResult.ok 200) [] =
      Except.ok true ∧
    hasAnyTopics oneTopic = true ∧ scCollected.1 ≠ [] ∧
    (lambda_handler scGetItem scFetch (fun _ => false) cxJparse
        (BedrockResult.ok cxRaw) (some "https://example.invalid/hook")
        (DeliveryResult.ok 500) ["feedA", "feedB"] 20 oneTopic []).statusCode = 200 ∧
    (lambda_handler scGetItem scFetch (fun _ => false) cxJparse
        (BedrockResult.ok cxRaw) (some "https://example.invalid/hook")
        (DeliveryResult.ok 500) ["feedA", "feedB"] 20 oneTopic []).markAttempts =
      scCollected.2 := by
  have hpost := (C7_delivery_failure_nonfatal.1 (some "https://example.invalid/hook")
    (DeliveryResult.ok 200) [] [] rfl).mpr ⟨rfl, rfl⟩
  have hrun := C7_delivery_failure_nonfatal.2 scGetItem scFetch (fun _ => false) cxJparse
    (BedrockResult.ok cxRaw) (some "https://example.invalid/hook") (DeliveryResult.ok 500)
    ["feedA", "feedB"] 20 oneTopic [] rfl (by decide)
  exact ⟨rfl, hpost, rfl, by decide, hrun.1, hrun.2⟩

theorem topic_display_eq_spec (fields : List (String × JValue))
    (hm : (match lookupField fields "matched_topic" with
           | none => true
           | some (JValue.str _) => true
           | some (JValue.arr xs) => (asStrings xs).isSome
           | _ => false) = true) :
    topic_display ((lookupField fields "matched_topic").getD (JValue.str "(N/A)")) =
      Except.ok (specTopicDisplay fields) := by
  unfold specTopicDisplay
  cases hmt : lookupField fields "matched_topic" with
  | none => rfl
  | some v =>
    rw [hmt] at hm
    cases v with
    | str s => rfl
    | arr xs =>
      cases xs with
      | nil => rfl
      | cons x rest =>
        obtain ⟨ss, hss⟩ := Option.isSome_iff_exists.mp (by simpa using hm)
        simp [topic_display, py_join, hss]
    | null => simp at hm
    | bool b => simp at hm
    | num n => simp at hm
    | obj fs => simp at hm

theorem keywords_display_eq_spec (fields : List (String × JValue))
    (hk : (match lookupField fields "keywords" with
           | none => true
           | some (JValue.arr xs) => (asStrings xs).isSome
           | _ => false) = true) :
    py_join ", " ((lookupField fields "keywords").getD (JValue.arr [])) =
      Except.ok (specKeywordsDisplay fields) := by
  unfold specKeywordsDisplay
  cases hmt : lookupField fields "keywords" with
  | none => rfl
  | some v =>
    rw [hmt] at hk
    cases v with
    | arr xs =>
      obtain ⟨ss, hss⟩ := Option.isSome_iff_exists.mp (by simpa using hk)
      simp [py_join, hss]
    | null => simp at hk
    | bool b => simp at hk
    | num n => simp at hk
    | str s => simp at hk
    | obj fs => simp at hk

theorem summary_display_eq_spec (fields : List (String × JValue))
    (hs : (match lookupField fields "summary" with
           | none => true | some (JValue.str _) => true | _ => false) = true) :
    pyStr ((lookupField fields "summary").getD (JValue.str "(No Summary)")) =
      specSummaryDisplay fields := by
  unfold specSummaryDisplay
  cases hmt : lookupField fields "summary" with
  | none => rfl
  | some v =>
    rw [hmt] at hs
    cases v <;> first | rfl | simp at hs

theorem title_display_eq_spec (fields : List (String × JValue))
    (ht : (match lookupField fields "title" with
           | some (JValue.str _) => true | _ => false) = true) :
    pyStr ((lookupField fields "title").getD (JValue.str "(No Title)")) =
      specTitleDisplay fields := by
  unfold specTitleDisplay
  cases hmt : lookupField fields "title" with
  | none => rfl
  | some v =>
    rw [hmt] at ht
    cases v <;> first | rfl | simp at ht

theorem render_paper_eq_spec (i : Nat) (p : JValue) (h : wellFormedPaper p = true) :
    render_paper i p = Except.ok (spec_blocks i p) := by
  cases p with
  | obj fields =>
    unfold wellFormedPaper at h
    simp only [Bool.and_eq_true] at h
    obtain ⟨⟨⟨⟨hu, ht⟩, hm⟩, hk⟩, hs⟩ := h
    unfold render_paper spec_blocks
    dsimp only
    rw [topic_display_eq_spec fields hm, keywords_display_eq_spec fields hk]
    dsimp only
    rw [summary_display_eq_spec fields hs, title_display_eq_spec fields ht]
    rfl
  | null => simp [wellFormedPaper] at h
  | bool b => simp [wellFormedPaper] at h
  | num n => simp [wellFormedPaper] at h
  | str s => simp [wellFormedPaper] at h
  | arr xs => simp [wellFormedPaper] at h

theorem build_card_aux_eq_spec :
    ∀ (papers : List JValue) (i : Nat), (∀ p ∈ papers, wellFormedPaper p = true) →
      build_card_aux papers i = Except.ok (spec_card_aux i papers) := by
  intro papers
  induction papers with
  | nil => intro i h; rfl
  | cons p rest ih =>
    intro i h
    have hp := h p (List.mem_cons_self p rest)
    have hrest := fun q hq => h q (List.mem_cons_of_mem p hq)
    unfold build_card_aux spec_card_aux
    rw [render_paper_eq_spec i p hp, ih (i + 1) hrest]

/-- C8: for every list of well-formed selected papers, the rendered card body
equals the spec-side rendering: per paper in input order a title block with
rank `i+1` and the title, one markdown block carrying the matched-topic
display (comma-joined list / verbatim string / placeholder for empty or
absent), the comma-joined keywords (empty when absent) and the summary
(placeholder when absent), and a link element with the paper's URL, with a
separator between consecutive entries and none before the first. -/
theorem C8_notifier_rendering :
    ∀ papers : List JValue, (∀ p ∈ papers, wellFormedPaper p = true) →
      build_card_body papers = Except.ok (spec_card_body papers) :=
  fun papers h => build_card_aux_eq_spec papers 0 h

/-- Witness for C8 at three concrete papers covering the list, string and
empty-list `matched_topic` shapes. -/
theorem C8_notifier_rendering_witness :
    wellFormedPaper wfPaper1 = true ∧ wellFormedPaper wfPaper2 = true ∧
    wellFormedPaper wfPaper3 = true ∧
    build_card_body [wfPaper1, wfPaper2, wfPaper3] =
      Except.ok (spec_card_body [wfPaper1, wfPaper2, wfPaper3]) :=
  ⟨rfl, rfl, rfl,
   C8_notifier_rendering [wfPaper1, wfPaper2, wfPaper3] (by decide)⟩

end NotifyBot
